import Mathlib

/-!
Verification of the Audible library exporter scripts.

The development shallowly embeds the two Python scripts of the repository,
src/audibleLibrary.py and src/authenticate.py, and proves the specified
properties of the pure data transformations (runtime conversion,
contributor extraction, row construction, CSV header) and of the two
sequential control flows (credential provisioner, library exporter).
-/

namespace Audible

/-- Model of the Python runtime values the two scripts manipulate: None,
int, float (modelled in exact rational arithmetic; every float the
development evaluates has a short exact decimal value, on which the
modelled operations agree with IEEE doubles), str, list, and dict with
string keys. -/
inductive PyVal where
  | none
  | int (n : ℤ)
  | float (q : ℚ)
  | str (s : String)
  | list (xs : List PyVal)
  | dict (entries : List (String × PyVal))

/-- Digits of the fractional part of a nonnegative rational, by repeated
multiplication by 10, fuel-bounded; exact on fractions with a finite
decimal expansion, the only ones this development evaluates. -/
def fracDigits : ℕ → ℚ → List Char
  | 0, _ => []
  | fuel + 1, r =>
      if r = 0 then []
      else
        Char.ofNat (48 + ⌊r * 10⌋.toNat) ::
          fracDigits fuel (r * 10 - (⌊r * 10⌋ : ℚ))

/-- Python str of a float: sign, integer part, a dot, and the fractional
digits, with at least one fractional digit, so 0.0 prints as "0.0" and
2.5 as "2.5"; agrees with CPython on floats whose value is a short exact
decimal, the only floats this development evaluates it on. -/
def floatRepr (q : ℚ) : String :=
  let sign := if q < 0 then "-" else ""
  let a := |q|
  let ip := ⌊a⌋
  let ds := fracDigits 17 (a - (ip : ℚ))
  sign ++ toString ip ++ "." ++ (if ds.isEmpty then "0" else String.mk ds)

/-- Python str.zfill: pad on the left with zeros to the given width,
keeping a leading sign character in front of the padding. -/
def zfill (width : ℕ) (s : String) : String :=
  if width ≤ s.length then s
  else match s.data with
    | '+' :: rest => String.mk ('+' :: (List.replicate (width - s.length) '0' ++ rest))
    | '-' :: rest => String.mk ('-' :: (List.replicate (width - s.length) '0' ++ rest))
    | l => String.mk (List.replicate (width - s.length) '0' ++ l)

/-- Python floor division (the // operator) by the literal 60, as applied
in convert_time: defined on int (Int.fdiv is floor division) and float
operands; Option.none models the TypeError CPython raises on any other
operand. -/
def pyFloorDiv60 : PyVal → Option PyVal
  | .int n => some (.int (Int.fdiv n 60))
  | .float q => some (.float ((⌊q / 60⌋ : ℤ) : ℚ))
  | _ => Option.none

/-- Python % by the literal 60, as applied in convert_time: Int.fmod on
ints (remainder with the sign of the divisor, as in Python), and
a - 60 * floor(a / 60) on floats; Option.none models TypeError. -/
def pyMod60 : PyVal → Option PyVal
  | .int n => some (.int (Int.fmod n 60))
  | .float q => some (.float (q - 60 * (⌊q / 60⌋ : ℚ)))
  | _ => Option.none

/-- Python str() on a number, the only operands the f-string in
convert_time receives (results of // and % on an int or float). -/
def pyStrNum : PyVal → Option String
  | .int n => some (toString n)
  | .float q => some (floatRepr q)
  | _ => Option.none

/-- The body of the try block of convert_time in src/audibleLibrary.py:
hours = v // 60, minutes = v % 60, and the f-string "hours:minutes"
with minutes zero-filled to width 2. Option.none models an escaping
TypeError; a ValueError cannot arise from these operations on this value
domain. -/
def convert_timeTry (v : PyVal) : Option (PyVal × String) := do
  let h ← pyFloorDiv60 v
  let m ← pyMod60 v
  let hs ← pyStrNum h
  let ms ← pyStrNum m
  some (v, hs ++ ":" ++ zfill 2 ms)

/-- convert_time from src/audibleLibrary.py: the try body, with the
handler for TypeError and ValueError returning (0, "0:00"). -/
def convert_time (v : PyVal) : PyVal × String :=
  (convert_timeTry v).getD (.int 0, "0:00")

/-- Zero-padding a string to two characters, as the spec words it
("zero-padded to two digits"). -/
def zeroPadTwo (s : String) : String :=
  String.mk (List.replicate (2 - s.length) '0' ++ s.data)

theorem zfill_toString_lt60 (k : ℕ) (hk : k < 60) :
    zfill 2 (toString k) = zeroPadTwo (toString k) := by
  have hall : ((List.range 60).all
      fun j => zfill 2 (toString j) == zeroPadTwo (toString j)) = true := by rfl
  have h := List.all_eq_true.mp hall k (List.mem_range.mpr hk)
  exact eq_of_beq h

/-- C1: for every non-negative integer m, convert_time(m) returns the pair
(m, s) where s is m div 60, a colon, and m mod 60 zero-padded to two
digits; in particular convert_time(125) = (125, "2:05"),
convert_time(59) = (59, "0:59") and convert_time(0) = (0, "0:00"). -/
theorem convert_time_nonneg_spec (m : ℕ) :
    convert_time (PyVal.int (m : ℤ)) =
      (PyVal.int (m : ℤ), toString (m / 60) ++ ":" ++ zeroPadTwo (toString (m % 60))) ∧
    convert_time (PyVal.int 125) = (PyVal.int 125, "2:05") ∧
    convert_time (PyVal.int 59) = (PyVal.int 59, "0:59") ∧
    convert_time (PyVal.int 0) = (PyVal.int 0, "0:00") := by
  refine ⟨?_, rfl, rfl, rfl⟩
  have hd : Int.fdiv (m : ℤ) 60 = ((m / 60 : ℕ) : ℤ) := by
    exact_mod_cast (Int.ofNat_fdiv m 60).symm
  have hmo : Int.fmod (m : ℤ) 60 = ((m % 60 : ℕ) : ℤ) := by
    exact_mod_cast (Int.ofNat_fmod m 60).symm
  have hb : convert_time (PyVal.int (m : ℤ)) =
      (PyVal.int (m : ℤ),
        toString (Int.fdiv (m : ℤ) 60) ++ ":" ++ zfill 2 (toString (Int.fmod (m : ℤ) 60))) := rfl
  rw [hb, hd, hmo]
  have hts1 : toString (((m / 60 : ℕ) : ℤ)) = toString (m / 60) := rfl
  have hts2 : toString (((m % 60 : ℕ) : ℤ)) = toString (m % 60) := rfl
  rw [hts1, hts2, zfill_toString_lt60 (m % 60) (Nat.mod_lt m (by norm_num))]

/-- C10: for every negative integer m the fallback (0, "0:00") is not
applied: convert_time(m) returns (m, s) where s is formed by floor
division and a modulo with a non-negative remainder; in particular
convert_time(-5) = (-5, "-1:55") and convert_time(-60) = (-60, "-1:00"). -/
theorem convert_time_negative (m : ℤ) (hm : m < 0) :
    convert_time (PyVal.int m) ≠ (PyVal.int 0, "0:00") ∧
    (∃ H R : ℤ, m = 60 * H + R ∧ 0 ≤ R ∧ R < 60 ∧
      convert_time (PyVal.int m) = (PyVal.int m, toString H ++ ":" ++ zeroPadTwo (toString R))) ∧
    convert_time (PyVal.int (-5)) = (PyVal.int (-5), "-1:55") ∧
    convert_time (PyVal.int (-60)) = (PyVal.int (-60), "-1:00") := by
  have hb : convert_time (PyVal.int m) =
      (PyVal.int m,
        toString (Int.fdiv m 60) ++ ":" ++ zfill 2 (toString (Int.fmod m 60))) := rfl
  have h0 : 0 ≤ Int.fmod m 60 := by
    rw [Int.fmod_eq_emod m (by norm_num)]
    exact Int.emod_nonneg m (by norm_num)
  have hlt : Int.fmod m 60 < 60 := Int.fmod_lt_of_pos m (by norm_num)
  refine ⟨?_, ⟨Int.fdiv m 60, Int.fmod m 60, (Int.fdiv_add_fmod m 60).symm, h0, hlt, ?_⟩,
    rfl, rfl⟩
  · rw [hb]
    intro h
    have h1 : PyVal.int m = PyVal.int 0 := (Prod.mk.injEq _ _ _ _ ▸ h).1
    rw [PyVal.int.injEq] at h1
    omega
  · rw [hb]
    have hRn : Int.fmod m 60 = (((Int.fmod m 60).toNat : ℕ) : ℤ) :=
      (Int.toNat_of_nonneg h0).symm
    rw [hRn]
    have hts : toString (((Int.fmod m 60).toNat : ℕ) : ℤ) = toString (Int.fmod m 60).toNat := rfl
    rw [hts, zfill_toString_lt60 (Int.fmod m 60).toNat (by omega)]

theorem convert_time_negative_witness :
    convert_time (PyVal.int (-5)) = (PyVal.int (-5), "-1:55") :=
  (convert_time_negative (-5) (by norm_num)).2.2.1

theorem fracDigits_zero_val (fuel : ℕ) : fracDigits fuel 0 = [] := by
  cases fuel with
  | zero => rfl
  | succ n => rw [fracDigits, if_pos rfl]

theorem fracDigits_succ (fuel : ℕ) (r : ℚ) (h : r ≠ 0) :
    fracDigits (fuel + 1) r =
      Char.ofNat (48 + ⌊r * 10⌋.toNat) :: fracDigits fuel (r * 10 - (⌊r * 10⌋ : ℚ)) := by
  rw [fracDigits, if_neg h]

theorem floatRepr_zeroQ : floatRepr 0 = "0.0" := by
  simp only [floatRepr]
  rw [if_neg (by norm_num : ¬(0 : ℚ) < 0), abs_zero, Int.floor_zero]
  rw [show (0 : ℚ) - ((0 : ℤ) : ℚ) = 0 by norm_num, fracDigits_zero_val]
  rfl

theorem floatRepr_five_halves : floatRepr (5 / 2) = "2.5" := by
  simp only [floatRepr]
  rw [if_neg (by norm_num : ¬(5 / 2 : ℚ) < 0),
    abs_of_nonneg (by norm_num : (0 : ℚ) ≤ 5 / 2),
    show ⌊(5 / 2 : ℚ)⌋ = 2 by norm_num,
    show (5 / 2 : ℚ) - ((2 : ℤ) : ℚ) = 1 / 2 by push_cast; norm_num,
    show (17 : ℕ) = 16 + 1 from rfl,
    fracDigits_succ 16 (1 / 2) (by norm_num),
    show (1 / 2 : ℚ) * 10 = 5 by norm_num,
    show ⌊(5 : ℚ)⌋ = 5 by norm_num,
    show (5 : ℚ) - ((5 : ℤ) : ℚ) = 0 by norm_num,
    fracDigits_zero_val]
  rfl

/-- C5 counterexample: the float 2.5 is a non-integer input, yet
convert_time processes it numerically instead of returning (0, "0:00"):
CPython evaluates convert_time(2.5) to (2.5, "0.0:2.5"), because floor
division and modulo are defined on floats and raise no TypeError. -/
theorem convert_time_float_counterexample :
    convert_time (PyVal.float (5 / 2)) = (PyVal.float (5 / 2), "0.0:2.5") ∧
    convert_time (PyVal.float (5 / 2)) ≠ (PyVal.int 0, "0:00") := by
  have hgen : ∀ q : ℚ, convert_time (PyVal.float q) =
      (PyVal.float q,
        floatRepr ((⌊q / 60⌋ : ℤ) : ℚ) ++ ":" ++
          zfill 2 (floatRepr (q - 60 * (⌊q / 60⌋ : ℚ)))) := fun q => rfl
  constructor
  · rw [hgen, show ⌊(5 / 2 : ℚ) / 60⌋ = 0 by norm_num,
      show (((0 : ℤ)) : ℚ) = 0 by norm_num,
      show (5 / 2 : ℚ) - 60 * (0 : ℚ) = 5 / 2 by norm_num,
      floatRepr_zeroQ, floatRepr_five_halves]
    rfl
  · intro h
    exact PyVal.noConfusion (congrArg Prod.fst h)

/-- C5 amended: for every input on which the arithmetic of the try body
raises — that is, every non-numeric value: None, any string, any list,
any dict — convert_time returns (0, "0:00") and never raises (it is a
total function); a float input is instead processed numerically. -/
theorem convert_time_invalid (v : PyVal) (h : pyFloorDiv60 v = Option.none) :
    convert_time v = (PyVal.int 0, "0:00") ∧
    convert_time PyVal.none = (PyVal.int 0, "0:00") ∧
    (∀ s, convert_time (PyVal.str s) = (PyVal.int 0, "0:00")) ∧
    (∀ xs, convert_time (PyVal.list xs) = (PyVal.int 0, "0:00")) ∧
    (∀ d, convert_time (PyVal.dict d) = (PyVal.int 0, "0:00")) := by
  refine ⟨?_, rfl, fun s => rfl, fun xs => rfl, fun d => rfl⟩
  unfold convert_time convert_timeTry
  rw [h]
  rfl

theorem convert_time_invalid_witness :
    convert_time (PyVal.str "abc") = (PyVal.int 0, "0:00") :=
  (convert_time_invalid (PyVal.str "abc") rfl).1

/-- The errors the body of get_contributors can raise on the modelled
value domain: TypeError and KeyError, exactly the two exceptions its
handler catches. -/
inductive CErr where
  | typeError
  | keyError

/-- Lookup of a string key in a Python dict, modelled as an association
list (dict keys are unique, so first match suffices). -/
def dictLookup (k : String) : List (String × PyVal) → Option PyVal
  | [] => Option.none
  | (k2, v) :: rest => if k2 = k then some v else dictLookup k rest

/-- Python iteration (for c in x): a list yields its elements, a string
yields its one-character substrings, a dict yields its keys; int, float
and None are not iterable and raise TypeError. -/
def pyIterate : PyVal → Except CErr (List PyVal)
  | .list xs => .ok xs
  | .str s => .ok (s.data.map fun c => .str (String.mk [c]))
  | .dict d => .ok (d.map fun e => .str e.1)
  | _ => .error .typeError

/-- The subscript c["name"]: lookup on a dict, KeyError when the key is
absent; every non-dict operand raises TypeError (a string or list rejects
a string index; int, float and None are not subscriptable). -/
def subscriptName : PyVal → Except CErr PyVal
  | .dict d =>
      match dictLookup "name" d with
      | some v => .ok v
      | Option.none => .error .keyError
  | _ => .error .typeError

/-- The list comprehension of get_contributors, c["name"] for each c, left
to right, first error propagating. -/
def extractNames : List PyVal → Except CErr (List PyVal)
  | [] => .ok []
  | c :: rest => do
      let n ← subscriptName c
      let ns ← extractNames rest
      .ok (n :: ns)

/-- The str.join argument check: every joined element must be a str,
otherwise TypeError. -/
def asStrings : List PyVal → Except CErr (List String)
  | [] => .ok []
  | .str s :: rest => do
      let ss ← asStrings rest
      .ok (s :: ss)
  | _ :: _ => .error .typeError

/-- The body of the try block of get_contributors in
src/audibleLibrary.py: iterate, take each c["name"], join with ";". -/
def get_contributorsTry (v : PyVal) : Except CErr String := do
  let cs ← pyIterate v
  let names ← extractNames cs
  let ss ← asStrings names
  .ok (String.intercalate ";" ss)

/-- get_contributors from src/audibleLibrary.py: the try body with the
handler for TypeError and KeyError returning "N/A"; CErr has exactly
those two errors, so the handler catches every failure of the body and
the function never raises. -/
def get_contributors (v : PyVal) : String :=
  match get_contributorsTry v with
  | .ok s => s
  | .error _ => "N/A"

theorem except_bind_ok {α β : Type} (a : α) (f : α → Except CErr β) :
    (Except.ok a >>= f) = f a := rfl

theorem except_bind_error {α β : Type} (e : CErr) (f : α → Except CErr β) :
    ((Except.error e : Except CErr α) >>= f) = Except.error e := rfl

theorem extractNames_of_forall₂ (contribs : List PyVal) (names : List String)
    (h : List.Forall₂ (fun c n => ∃ entries, c = PyVal.dict entries ∧
           dictLookup "name" entries = some (PyVal.str n)) contribs names) :
    extractNames contribs = .ok (names.map PyVal.str) := by
  induction h with
  | nil => rfl
  | cons hcn _ ih =>
      obtain ⟨entries, hc, hn⟩ := hcn
      subst hc
      simp [extractNames, subscriptName, hn, ih, except_bind_ok]

theorem asStrings_map_str (names : List String) :
    asStrings (names.map PyVal.str) = .ok names := by
  induction names with
  | nil => rfl
  | cons n rest ih => simp [asStrings, ih, except_bind_ok]

theorem extractNames_error_of_missing (xs : List PyVal)
    (h : ∃ c ∈ xs, ∃ entries, c = PyVal.dict entries ∧
          dictLookup "name" entries = Option.none) :
    ∃ e, extractNames xs = .error e := by
  induction xs with
  | nil => simp at h
  | cons y ys ih =>
      obtain ⟨c, hc, entries, hce, hlook⟩ := h
      rcases List.mem_cons.mp hc with hcy | hcys
      · rw [hcy] at hce
        subst hce
        exact ⟨CErr.keyError,
          by simp [extractNames, subscriptName, hlook, except_bind_error]⟩
      · cases hsub : subscriptName y with
        | error e => exact ⟨e, by simp [extractNames, hsub, except_bind_error]⟩
        | ok n =>
            obtain ⟨e, he⟩ := ih ⟨c, hcys, entries, hce, hlook⟩
            exact ⟨e, by simp [extractNames, hsub, he, except_bind_ok, except_bind_error]⟩

/-- C2: for a list of contributor records each carrying a string under the
"name" key, get_contributors joins the names with ";" in input order; on
the empty list it returns ""; on a non-iterable input, or a list with an
element lacking the "name" key, it returns "N/A" without raising (it is a
total function). -/
theorem get_contributors_spec :
    (∀ (contribs : List PyVal) (names : List String),
        List.Forall₂ (fun c n => ∃ entries, c = PyVal.dict entries ∧
          dictLookup "name" entries = some (PyVal.str n)) contribs names →
        get_contributors (PyVal.list contribs) = String.intercalate ";" names) ∧
    get_contributors (PyVal.list [PyVal.dict [("name", PyVal.str "A")],
      PyVal.dict [("name", PyVal.str "B")]]) = "A;B" ∧
    get_contributors (PyVal.list []) = "" ∧
    (∀ v e, pyIterate v = .error e → get_contributors v = "N/A") ∧
    (∀ xs, (∃ c ∈ xs, ∃ entries, c = PyVal.dict entries ∧
        dictLookup "name" entries = Option.none) →
      get_contributors (PyVal.list xs) = "N/A") := by
  refine ⟨?_, rfl, rfl, ?_, ?_⟩
  · intro contribs names h
    have h1 := extractNames_of_forall₂ contribs names h
    simp [get_contributors, get_contributorsTry, pyIterate, h1, asStrings_map_str,
      except_bind_ok]
  · intro v e h
    simp [get_contributors, get_contributorsTry, h, except_bind_error]
  · intro xs h
    obtain ⟨e, he⟩ := extractNames_error_of_missing xs h
    cases e <;> simp [get_contributors, get_contributorsTry, pyIterate, he,
      except_bind_ok, except_bind_error]

theorem get_contributors_spec_witness :
    get_contributors (PyVal.list [PyVal.dict [("name", PyVal.str "X")],
      PyVal.dict [("name", PyVal.str "Y")], PyVal.dict [("name", PyVal.str "Z")]]) = "X;Y;Z" ∧
    get_contributors PyVal.none = "N/A" ∧
    get_contributors (PyVal.list [PyVal.dict [("other", PyVal.int 1)]]) = "N/A" :=
  ⟨get_contributors_spec.1 _ ["X", "Y", "Z"]
      (.cons ⟨_, rfl, rfl⟩ (.cons ⟨_, rfl, rfl⟩ (.cons ⟨_, rfl, rfl⟩ .nil))),
   get_contributors_spec.2.2.2.1 PyVal.none CErr.typeError rfl,
   get_contributors_spec.2.2.2.2 _ ⟨PyVal.dict [("other", PyVal.int 1)], by simp,
      [("other", PyVal.int 1)], rfl, rfl⟩⟩

/-- A Python dict record with string keys, the shape of the library items
the API listing returns and that the loop of get_library reads with
book.get(key, default). -/
abbrev Item := List (String × PyVal)

/-- dict.get(key, default). -/
def itemGet (book : Item) (key : String) (dflt : PyVal) : PyVal :=
  (dictLookup key book).getD dflt

/-- The body of the loop of get_library in src/audibleLibrary.py: extract
authors, narrators, title, purchase date, release date and runtime with
their defaults, convert the runtime, and append the seven values in the
order of the source. -/
def bookRow (book : Item) : List PyVal :=
  let authors := get_contributors (itemGet book "authors" (.list []))
  let narrators := get_contributors (itemGet book "narrators" (.list []))
  let title := itemGet book "title" (.str "Unknown Title")
  let purchased := itemGet book "purchase_date" (.str "Unknown Purchase Date")
  let released := itemGet book "release_date" (.str "Unknown Release Date")
  let runtime_length := itemGet book "runtime_length_min" (.int 0)
  let rt := convert_time runtime_length
  [.str authors, title, .str narrators, rt.1, .str rt.2, released, purchased]

/-- The whole transformation loop of get_library: one row per returned
item, in API order. -/
def libraryRows (items : List Item) : List (List PyVal) :=
  items.map bookRow

/-- The header fields written by write_library. -/
def fields : List String :=
  ["authors", "title", "narrators", "runtime_mmm", "runtime_hm", "released", "purchased"]

/-- The rows write_library hands to the csv writer: the header row first,
then the library rows unchanged and in order. -/
def write_libraryRows (library : List (List PyVal)) : List (List PyVal) :=
  (fields.map PyVal.str) :: library

/-- csv.writer quoting rule (QUOTE_MINIMAL): a field is quoted iff it
contains the delimiter, the quote character, or a line break. -/
def csvQuoteNeeded (s : String) : Bool :=
  s.data.any fun c => c = ',' || c = '"' || c = '\r' || c = '\n'

/-- Doubling of embedded quote characters inside a quoted csv field. -/
def csvEscape (s : String) : String :=
  String.mk (s.data.foldr (fun c acc => if c = '"' then '"' :: '"' :: acc else c :: acc) [])

def csvField (s : String) : String :=
  if csvQuoteNeeded s then "\"" ++ csvEscape s ++ "\"" else s

/-- One physical csv line for a row of string cells: fields joined by the
comma delimiter, each quoted when needed. -/
def csvLine (cells : List String) : String :=
  String.intercalate "," (cells.map csvField)

/-- Environment of one exporter run: whether the credential file exists,
whether Authenticator.from_file succeeds, and the API listing outcome
(error, or the returned item records in order). -/
structure ExpEnv where
  authFileExists : Bool
  credentialLoadOk : Bool
  apiResult : Except Unit (List Item)

/-- Observable outcome of one exporter run: the exit status passed to
sys.exit if it was called, whether the credential load was attempted,
whether the listing request was issued, and the produced rows. -/
structure ExpOutcome where
  exitCode : Option ℕ
  credentialLoadAttempted : Bool
  apiCalled : Bool
  books : List (List PyVal)

/-- Control flow of get_library in src/audibleLibrary.py: exit 1 when the
credential file is missing, before loading the credential; exit 1 on an
authentication error, before any API request; exit 1 on an API error;
otherwise transform every returned item. -/
def get_libraryRun (env : ExpEnv) : ExpOutcome :=
  if env.authFileExists = false then ⟨some 1, false, false, []⟩
  else if env.credentialLoadOk = false then ⟨some 1, true, false, []⟩
  else
    match env.apiResult with
    | .error _ => ⟨some 1, true, true, []⟩
    | .ok items => ⟨Option.none, true, true, libraryRows items⟩

/-- C3: for every payload of N item records, the rows handed to the csv
writer are the header followed by the N data rows, N + 1 rows in total,
and the data row at index i + 1 is the transform of the item the API
returned at index i. -/
theorem exporter_rows_spec (items : List Item) :
    write_libraryRows (libraryRows items) = (fields.map PyVal.str) :: items.map bookRow ∧
    (write_libraryRows (libraryRows items)).length = items.length + 1 ∧
    (∀ i : ℕ, (write_libraryRows (libraryRows items)).get? (i + 1) =
      (items.get? i).map bookRow) ∧
    (∀ env : ExpEnv, env.apiResult = .ok items →
      write_libraryRows (get_libraryRun env).books = (fields.map PyVal.str) :: items.map bookRow ∨
      (get_libraryRun env).exitCode = some 1) := by
  refine ⟨rfl, by simp [write_libraryRows, libraryRows], ?_, ?_⟩
  · intro i
    simp [write_libraryRows, libraryRows]
  · intro env hapi
    obtain ⟨af, cl, api⟩ := env
    cases af
    · right; rfl
    · cases cl
      · right; rfl
      · left
        simp only at hapi
        subst hapi
        rfl

theorem exporter_rows_spec_witness :
    write_libraryRows (libraryRows [[("title", PyVal.str "T")], []]) =
      (fields.map PyVal.str) :: [[("title", PyVal.str "T")], []].map bookRow ∧
    (write_libraryRows (libraryRows [[("title", PyVal.str "T")], []])).length = 3 :=
  ⟨(exporter_rows_spec [[("title", PyVal.str "T")], []]).1,
   (exporter_rows_spec [[("title", PyVal.str "T")], []]).2.1⟩

/-- The authors cell of a row: contributor extraction of the "authors"
list, defaulting to the empty list. -/
def authorsOf (book : Item) : String :=
  get_contributors (itemGet book "authors" (PyVal.list []))

/-- The narrators cell of a row. -/
def narratorsOf (book : Item) : String :=
  get_contributors (itemGet book "narrators" (PyVal.list []))

/-- The title cell of a row, defaulting to the sentinel title. -/
def titleOf (book : Item) : PyVal := itemGet book "title" (PyVal.str "Unknown Title")

/-- The purchase date cell of a row. -/
def purchasedOf (book : Item) : PyVal :=
  itemGet book "purchase_date" (PyVal.str "Unknown Purchase Date")

/-- The release date cell of a row. -/
def releasedOf (book : Item) : PyVal :=
  itemGet book "release_date" (PyVal.str "Unknown Release Date")

/-- The runtime in minutes as returned by the API, defaulting to 0. -/
def runtimeOf (book : Item) : PyVal := itemGet book "runtime_length_min" (PyVal.int 0)

/-- The runtime_mmm cell of a row. -/
def runtimeMmmOf (book : Item) : PyVal := (convert_time (runtimeOf book)).1

/-- The runtime_hm cell of a row. -/
def runtimeHmOf (book : Item) : String := (convert_time (runtimeOf book)).2

/-- C4: the csv header line is exactly
authors,title,narrators,runtime_mmm,runtime_hm,released,purchased, and
every data row has exactly seven cells, in the order of the header:
authors, title, narrators, runtime_mmm, runtime_hm, released,
purchased. -/
theorem csv_header_and_row_shape :
    csvLine fields = "authors,title,narrators,runtime_mmm,runtime_hm,released,purchased" ∧
    (∀ book : Item, bookRow book =
      [PyVal.str (authorsOf book), titleOf book, PyVal.str (narratorsOf book),
       runtimeMmmOf book, PyVal.str (runtimeHmOf book), releasedOf book, purchasedOf book]) ∧
    (∀ book : Item, (bookRow book).length = 7) :=
  ⟨rfl, fun _ => rfl, fun _ => rfl⟩

/-- C9: an item record missing the title, purchase date, release date or
runtime keys is still transformed into exactly one row, with the default
substitutions of the source: the sentinel texts for the dates and the
title, and runtime 0 which converts to (0, "0:00"); and every item of a
payload contributes exactly one row. -/
theorem missing_fields_defaulted (book : Item)
    (ht : dictLookup "title" book = Option.none)
    (hp : dictLookup "purchase_date" book = Option.none)
    (hr : dictLookup "release_date" book = Option.none)
    (hm : dictLookup "runtime_length_min" book = Option.none) :
    bookRow book =
      [PyVal.str (authorsOf book), PyVal.str "Unknown Title",
       PyVal.str (narratorsOf book), PyVal.int 0, PyVal.str "0:00",
       PyVal.str "Unknown Release Date", PyVal.str "Unknown Purchase Date"] ∧
    (∀ items : List Item, (libraryRows items).length = items.length) := by
  constructor
  · simp only [bookRow, itemGet, ht, hp, hr, hm, Option.getD]
    rfl
  · intro items
    simp [libraryRows]

theorem missing_fields_defaulted_witness :
    bookRow ([] : Item) =
      [PyVal.str "", PyVal.str "Unknown Title", PyVal.str "", PyVal.int 0,
       PyVal.str "0:00", PyVal.str "Unknown Release Date",
       PyVal.str "Unknown Purchase Date"] :=
  (missing_fields_defaulted [] rfl rfl rfl rfl).1

/-- C7: whenever the credential file does not exist, the exporter exits
with status 1 without loading the credential and without issuing the
listing request. -/
theorem exporter_missing_auth_file (env : ExpEnv) (h : env.authFileExists = false) :
    (get_libraryRun env).exitCode = some 1 ∧
    (get_libraryRun env).credentialLoadAttempted = false ∧
    (get_libraryRun env).apiCalled = false := by
  obtain ⟨af, cl, api⟩ := env
  simp only at h
  subst h
  exact ⟨rfl, rfl, rfl⟩

theorem exporter_missing_auth_file_witness :
    (get_libraryRun ⟨false, true, .ok []⟩).exitCode = some 1 ∧
    (get_libraryRun ⟨false, true, .ok []⟩).credentialLoadAttempted = false ∧
    (get_libraryRun ⟨false, true, .ok []⟩).apiCalled = false :=
  exporter_missing_auth_file ⟨false, true, .ok []⟩ rfl

/-- Outcome of the chmod call in the provisioner: success, AttributeError
(os.chmod unavailable on the platform), or OSError. -/
inductive ChmodOutcome where
  | chmodOk
  | attrError
  | osError

/-- Environment of one provisioner run: whether the login call succeeds,
whether the directory creation and credential write succeed, and the
chmod outcome. -/
structure ProvEnv where
  loginOk : Bool
  writeOk : Bool
  chmod : ChmodOutcome

/-- Observable outcome of one provisioner run: exit status (0 on falling
off the end of main), whether the login network call was made, and
whether the credential file was written. -/
structure ProvOutcome where
  exitCode : ℕ
  networkCalled : Bool
  fileWritten : Bool

/-- Python str.strip() whitespace set (ASCII part). -/
def isPySpace (c : Char) : Bool :=
  c = ' ' || c = '\t' || c = '\n' || c = '\r' || c = '\x0b' || c = '\x0c'

/-- Python str.strip(): drop leading and trailing whitespace. -/
def pyStrip (s : String) : String :=
  String.mk (((s.data.dropWhile isPySpace).reverse.dropWhile isPySpace).reverse)

/-- Control flow of main in src/authenticate.py: exit 1 when the stripped
username or password is empty, before any network call and any write;
exit 1 on login failure; exit 1 on a write failure; after a successful
write, an AttributeError from os.chmod is swallowed by the inner handler,
while an OSError propagates to the IOError handler (IOError aliases
OSError) and exits 1 even though the file was written. -/
def provisionerRun (username password : String) (env : ProvEnv) : ProvOutcome :=
  if pyStrip username = "" ∨ pyStrip password = "" then ⟨1, false, false⟩
  else if env.loginOk = false then ⟨1, true, false⟩
  else if env.writeOk = false then ⟨1, true, false⟩
  else
    match env.chmod with
    | ChmodOutcome.osError => ⟨1, true, true⟩
    | _ => ⟨0, true, true⟩

/-- C6: when the username or the password is empty after stripping, the
provisioner exits with status 1 without any network call and without
writing any file, whatever the environment would have answered. -/
theorem provisioner_empty_credentials (u p : String) (env : ProvEnv)
    (h : pyStrip u = "" ∨ pyStrip p = "") :
    (provisionerRun u p env).exitCode = 1 ∧
    (provisionerRun u p env).networkCalled = false ∧
    (provisionerRun u p env).fileWritten = false := by
  unfold provisionerRun
  rw [if_pos h]
  exact ⟨rfl, rfl, rfl⟩

theorem provisioner_empty_credentials_witness :
    (provisionerRun "   " "secret" ⟨true, true, ChmodOutcome.chmodOk⟩).exitCode = 1 ∧
    (provisionerRun "   " "secret" ⟨true, true, ChmodOutcome.chmodOk⟩).networkCalled = false ∧
    (provisionerRun "   " "secret" ⟨true, true, ChmodOutcome.chmodOk⟩).fileWritten = false :=
  provisioner_empty_credentials "   " "secret" ⟨true, true, ChmodOutcome.chmodOk⟩
    (Or.inl rfl)

/-- C8: when login succeeds and the credential file is written, a chmod
failure on a platform where it is unsupported (AttributeError) is
silently tolerated: the run still completes with exit status 0 and the
file stays written. -/
theorem provisioner_chmod_unsupported (u p : String) (env : ProvEnv)
    (hu : pyStrip u ≠ "") (hp : pyStrip p ≠ "")
    (hl : env.loginOk = true) (hw : env.writeOk = true)
    (hc : env.chmod = ChmodOutcome.attrError) :
    (provisionerRun u p env).exitCode = 0 ∧
    (provisionerRun u p env).fileWritten = true := by
  obtain ⟨lo, w, ch⟩ := env
  simp only at hl hw hc
  subst hl
  subst hw
  subst hc
  unfold provisionerRun
  rw [if_neg (not_or.mpr ⟨hu, hp⟩)]
  exact ⟨rfl, rfl⟩

theorem provisioner_chmod_unsupported_witness :
    (provisionerRun "user" "secret" ⟨true, true, ChmodOutcome.attrError⟩).exitCode = 0 ∧
    (provisionerRun "user" "secret" ⟨true, true, ChmodOutcome.attrError⟩).fileWritten = true :=
  provisioner_chmod_unsupported "user" "secret" ⟨true, true, ChmodOutcome.attrError⟩
    (by simp [pyStrip, isPySpace]) (by simp [pyStrip, isPySpace]) rfl rfl rfl

end Audible
